import Mathlib

/-!
Verification development for the DocCraftServer file-processing service
(src/main.py).  The definitions below are a shallow embedding of the
functions of that file: Python byte strings become `List Nat` of byte
values, the PyPDF2 reader becomes an abstract parsed-document record,
external collaborators (the pdf2image renderer, the file system, the
removal syscalls) become explicit oracle parameters, and every fallible
step returns an explicit result value.
-/

deriving instance DecidableEq for Except

namespace DocCraft

/-- Byte values of a string literal; models a Python ASCII string. -/
def byteStr (s : String) : List Nat := s.data.map Char.toNat

/-- ASCII lower-casing of one byte; models Python str.lower on ASCII data. -/
def lowerByte (c : Nat) : Nat := if 65 ≤ c ∧ c ≤ 90 then c + 32 else c

/-- Byte-wise lower-casing of a byte string. -/
def lowerBytes (s : List Nat) : List Nat := s.map lowerByte

/-- ASCII upper-casing of one byte; models Python str.upper on ASCII data. -/
def upperByte (c : Nat) : Nat := if 97 ≤ c ∧ c ≤ 122 then c - 32 else c

/-- Byte-wise upper-casing of a byte string. -/
def upperBytes (s : List Nat) : List Nat := s.map upperByte

/-- Does the second list start with the first?  Models str.startswith. -/
def startsWith : List Nat → List Nat → Bool
  | [], _ => true
  | _ :: _, [] => false
  | p :: ps, c :: cs => decide (p = c) && startsWith ps cs

/-- Does `s` end with `suf`?  Models str.endswith. -/
def endsWithB (s suf : List Nat) : Bool := startsWith suf.reverse s.reverse

/-- Substring test; models the Python expression `pat in s`. -/
def containsSub (pat : List Nat) : List Nat → Bool
  | [] => startsWith pat []
  | c :: cs => startsWith pat (c :: cs) || containsSub pat cs

/-!  Document crypto model (`remove_password_pypdf2`, src/main.py:354-404). -/

/-- Abstract parsed PDF as PyPDF2 exposes it to `remove_password_pypdf2`:
the raw file bytes, whether the file is encrypted, the user and owner
secrets it was encrypted with (meaningful only when `encrypted` is true),
the page list and the optional metadata dictionary. -/
structure PdfFile where
  bytes : List Nat
  encrypted : Bool
  userPw : List Nat
  ownerPw : List Nat
  pages : List Nat
  metadata : Option (List Nat)
deriving DecidableEq

/-- Result code of `PyPDF2.PdfReader.decrypt`: 0 = rejected,
1 = accepted as the user secret, 2 = accepted as the owner secret. -/
def pypdf2Decrypt (doc : PdfFile) (pw : List Nat) : Nat :=
  if pw = doc.userPw then 1 else if pw = doc.ownerPw then 2 else 0

/-- What `remove_password_pypdf2` wrote to `output_path`: either a raw
byte-for-byte file copy (the `shutil.copy` branch, src/main.py:364) or a
re-serialization through `PdfWriter` of the copied pages and metadata
(src/main.py:378-397). -/
inductive Written where
  | copiedBytes (b : List Nat)
  | serialized (pages : List Nat) (metadata : Option (List Nat))
deriving DecidableEq

/-- Shallow embedding of `remove_password_pypdf2` (src/main.py:354-404).
The input is the result of opening and parsing `input_path`: a parse or
I/O failure raises, is caught by the blanket handler at line 402 and
yields `False` with nothing written.  Returns the boolean result of the
Python function together with what, if anything, was written to
`output_path`. -/
def remove_password_pypdf2 (input : Except (List Nat) PdfFile) (password : List Nat) :
    Bool × Option Written :=
  match input with
  | .error _ => (false, none)
  | .ok doc =>
    if doc.encrypted = false then
      (true, some (.copiedBytes doc.bytes))
    else if pypdf2Decrypt doc password = 0 then
      (false, none)
    else
      (true, some (.serialized doc.pages doc.metadata))

/-!  Rasterization pipeline model (`convert_pdf_to_images`, src/main.py:120-215). -/

/-- Client-visible errors of the pdf-to-images endpoint past validation:
the three HTTPException bodies raised at src/main.py:163, 178 and 179. -/
inductive RasterError where
  | invalidPassword
  | passwordRequired
  | conversionFailed (msg : List Nat)
deriving DecidableEq

/-- Mapping of a renderer exception message to a client error
(src/main.py:177-179): the code tests the literal substring "password"
against the lower-cased diagnostic. -/
def rasterizeErrorMap (e : List Nat) : RasterError :=
  if containsSub (byteStr "password") (lowerBytes e) then .passwordRequired
  else .conversionFailed e

/-- The temporary artifacts `convert_pdf_to_images` can stage under
TEMP_DIR: `input_<base>_<pid>.pdf`, `images_<base>_<pid>.zip`, the
`images_<base>_<pid>` directory, and `unlocked_<base>_<pid>.pdf`. -/
inductive TempPath where
  | inputFile
  | outputZip
  | imagesDir
  | unlockedFile
deriving DecidableEq

/-- Outcome record of one run of `convert_pdf_to_images` past parameter
validation: the client-visible result, which artifacts were staged
during the run, which paths were handed to the deferred background
cleanup (src/main.py:208), and which paths were cleaned immediately on
the failure paths (none: the handlers at src/main.py:211-215 only
re-raise). -/
structure ConvertResult where
  result : Except RasterError (List Nat)
  staged : List TempPath
  deferredCleanup : List TempPath
  immediateCleanup : List TempPath
deriving DecidableEq

/-- The rendering-and-packaging tail of `convert_pdf_to_images`
(src/main.py:166-209), with the `convert_from_path` call abstracted as
the `render` oracle (its exception message on the left, the rendered
page list on the right).  On success the zip is staged and the
background task is `cleanup_files(input_file_path, output_zip_path,
temp_images_dir)`; on failure nothing is cleaned before re-raising. -/
def renderPhase (staged : List TempPath) (render : Except (List Nat) (List Nat)) :
    ConvertResult :=
  match render with
  | .error e => ⟨.error (rasterizeErrorMap e), staged, [], []⟩
  | .ok pages =>
      ⟨.ok pages, staged ++ [TempPath.outputZip],
        [TempPath.inputFile, TempPath.outputZip, TempPath.imagesDir], []⟩

/-- Shallow embedding of `convert_pdf_to_images` past its parameter
validation (src/main.py:142-215).  The uploaded file and the images
directory are staged first; if a password was supplied the decrypt step
runs and a `False` result raises the invalid-password HTTPException
(src/main.py:161-163) with no cleanup; a successful decrypt stages the
unlocked copy and rendering proceeds on it. -/
def convert_pdf_to_images (password : Option (List Nat)) (input : Except (List Nat) PdfFile)
    (render : Except (List Nat) (List Nat)) : ConvertResult :=
  let staged0 := [TempPath.inputFile, TempPath.imagesDir]
  match password with
  | some pw =>
      if (remove_password_pypdf2 input pw).1 = false then
        ⟨.error .invalidPassword, staged0, [], []⟩
      else
        renderPhase (staged0 ++ [TempPath.unlockedFile]) render
  | none => renderPhase staged0 render

/-- Modelled from the claim wording of C5 (not from the source): a
renderer diagnostic that "mentions password/encryption". -/
def claimMentionsPasswordOrEncryption (e : List Nat) : Bool :=
  containsSub (byteStr "password") (lowerBytes e) ||
    containsSub (byteStr "encrypt") (lowerBytes e)

/-!  Page-image naming and archive model (src/main.py:181-199). -/

/-- Decimal digits of `n`, most significant first, with explicit fuel so
the recursion is structural; fuel `n + 1` always suffices. -/
def decDigitsAux : Nat → Nat → List Nat
  | 0, _ => []
  | fuel + 1, n => if n < 10 then [n] else decDigitsAux fuel (n / 10) ++ [n % 10]

/-- Decimal digits of `n`, most significant first. -/
def decDigits (n : Nat) : List Nat := decDigitsAux (n + 1) n

/-- ASCII bytes of the decimal representation of `n`; models str(n). -/
def digitBytes (n : Nat) : List Nat := (decDigits n).map (fun d => 48 + d)

/-- ASCII bytes of the Python format `f"{n:03d}"`: the decimal
representation left-padded with zeros to width at least 3. -/
def pad3 (n : Nat) : List Nat :=
  List.replicate (3 - (digitBytes n).length) 48 ++ digitBytes n

/-- Accepted values of the `format` form field (src/main.py:132). -/
inductive ImgFormat where
  | png
  | jpeg
  | jpg
deriving DecidableEq

/-- Bytes of `format.lower()`, the file-name extension used at
src/main.py:184. -/
def formatExt : ImgFormat → List Nat
  | .png => byteStr "png"
  | .jpeg => byteStr "jpeg"
  | .jpg => byteStr "jpg"

/-- File name of the image saved for 1-based page index `pageIdx`:
`f"page_{i+1:03d}.{format.lower()}"` (src/main.py:184). -/
def imageFilename (fmt : ImgFormat) (pageIdx : Nat) : List Nat :=
  byteStr "page_" ++ pad3 pageIdx ++ byteStr "." ++ formatExt fmt

/-- Entry names of the produced zip archive for an `n`-page document, in
insertion order: the loop at src/main.py:183-199 writes one entry per
page, named after the page file (`zipf.write(image_path,
image_path.name)`). -/
def archiveEntries (fmt : ImgFormat) (n : Nat) : List (List Nat) :=
  (List.range n).map (fun i => imageFilename fmt (i + 1))

/-- Arguments the page-save call passes to Pillow (src/main.py:188-191):
the encoder name, the optional quality, and the optimize flag. -/
structure SaveParams where
  encoder : List Nat
  quality : Option Nat
  optimize : Bool
deriving DecidableEq

/-- Save parameters chosen per requested format (src/main.py:188-191). -/
def savedWith : ImgFormat → SaveParams
  | .jpeg => ⟨byteStr "JPEG", some 95, true⟩
  | .jpg => ⟨byteStr "JPEG", some 95, true⟩
  | .png => ⟨byteStr "PNG", none, true⟩

/-- Strict lexicographic byte-string order, as used to compare archive
entry names. -/
def lexLt : List Nat → List Nat → Bool
  | _, [] => false
  | [], _ :: _ => true
  | a :: as, b :: bs => if a < b then true else if b < a then false else lexLt as bs

/-!  Image composition model (`convert_images_to_pdf`, src/main.py:217-350). -/

/-- The resampling filter passed to `img.resize` (src/main.py:310). -/
inductive ResampleFilter where
  | lanczos
  | nearest
  | bilinear
deriving DecidableEq

/-- Per-image layout computed by the loop body of `convert_images_to_pdf`
(src/main.py:288-324): the scale, the drawn box, its position, and the
resize call issued when `scale < 1` (pixel dimensions truncated by
Python int(), the filter is LANCZOS); when `scale ≥ 1` no resize runs
and the native pixels are embedded into the scaled box. -/
structure PageLayout where
  scale : ℚ
  newWidth : ℚ
  newHeight : ℚ
  x : ℚ
  y : ℚ
  resample : Option (Nat × Nat × ResampleFilter)
deriving DecidableEq

/-- Shallow embedding of the scaling/centering math of
`convert_images_to_pdf` (src/main.py:288-324), with page dimensions as
exact rationals in place of Python floats. -/
def layoutImage (pageWidth pageHeight : ℚ) (imgWidth imgHeight : Nat) : PageLayout :=
  let maxWidth := pageWidth - 100
  let maxHeight := pageHeight - 100
  let scaleX := maxWidth / imgWidth
  let scaleY := maxHeight / imgHeight
  let scale := min scaleX scaleY
  let newWidth := imgWidth * scale
  let newHeight := imgHeight * scale
  let x := (pageWidth - newWidth) / 2
  let y := (pageHeight - newHeight) / 2
  if scale < 1 then
    ⟨scale, newWidth, newHeight, x, y,
      some ((⌊(imgWidth : ℚ) * scale⌋).toNat, (⌊(imgHeight : ℚ) * scale⌋).toNat, .lanczos)⟩
  else
    ⟨scale, newWidth, newHeight, x, y, none⟩

/-- The page-size table of src/main.py:265-269 (reportlab A4 and letter
constants as exact rationals: 210mm×297mm and 612×792 points) and the
orientation swap of src/main.py:271-273. -/
def pageDims (page_size orientation : List Nat) : ℚ × ℚ :=
  let dims : ℚ × ℚ :=
    if upperBytes page_size = byteStr "A4" then (75600 / 127, 106920 / 127)
    else if upperBytes page_size = byteStr "LETTER" then (612, 792)
    else (612, 1008)
  if lowerBytes orientation = byteStr "landscape" then (dims.2, dims.1) else dims

/-- Validation errors of `convert_images_to_pdf` (src/main.py:226-252),
in the order the code tests them. -/
inductive ComposeError where
  | noImages
  | tooManyImages
  | badPageSize
  | badOrientation
  | badQuality
  | unsupportedFormat (filename : List Nat)
deriving DecidableEq

/-- The extension whitelist of src/main.py:246. -/
def allowed_formats : List (List Nat) :=
  [byteStr ".png", byteStr ".jpg", byteStr ".jpeg", byteStr ".gif",
   byteStr ".bmp", byteStr ".tiff", byteStr ".webp"]

/-- The per-file test of src/main.py:248:
`any(file.filename.lower().endswith(ext) for ext in allowed_formats)`. -/
def isAllowedImage (filename : List Nat) : Bool :=
  allowed_formats.any (fun ext => endsWithB (lowerBytes filename) ext)

/-- First file failing the extension test, as the loop at
src/main.py:247-252 raises on the first offender. -/
def findBadImage : List (List Nat) → Option (List Nat)
  | [] => none
  | f :: fs => if isAllowedImage f then findBadImage fs else some f

/-- The validation prologue of `convert_images_to_pdf`
(src/main.py:226-252), in source order: count checks, page-size,
orientation and quality checks, then the extension check over all files
— all before any file is staged or transformed. -/
def validateCompose (files : List (List Nat)) (page_size orientation : List Nat)
    (quality : Nat) : Option ComposeError :=
  if files.length = 0 then some .noImages
  else if 50 < files.length then some .tooManyImages
  else if ¬ (upperBytes page_size ∈ [byteStr "A4", byteStr "LETTER", byteStr "LEGAL"]) then
    some .badPageSize
  else if ¬ (lowerBytes orientation ∈ [byteStr "portrait", byteStr "landscape"]) then
    some .badOrientation
  else if ¬ (50 ≤ quality ∧ quality ≤ 100) then some .badQuality
  else
    match findBadImage files with
    | some f => some (.unsupportedFormat f)
    | none => none

/-- `convert_images_to_pdf` with the staging-and-transform tail
(src/main.py:254-344) abstracted as the `transform` oracle: the oracle
is consulted only after the whole validation prologue passes. -/
def composeWith (transform : List (List Nat) → Except ComposeError (List Nat))
    (files : List (List Nat)) (page_size orientation : List Nat) (quality : Nat) :
    Except ComposeError (List Nat) :=
  match validateCompose files page_size orientation quality with
  | some e => .error e
  | none => transform files

/-- A concrete transform oracle used in witnesses. -/
def emptyTransform : List (List Nat) → Except ComposeError (List Nat) :=
  fun _ => .ok []

/-!  Staging-path derivation (src/main.py:143-148 and 254-260). -/

/-- Removal of every occurrence of `pat` from `s`  (fuel-structured scan;
fuel `s.length` suffices); models Python str.replace(pat, ""). -/
def dropOcc (pat : List Nat) : Nat → List Nat → List Nat
  | 0, s => s
  | _ + 1, [] => []
  | fuel + 1, c :: rest =>
      if startsWith pat (c :: rest) then dropOcc pat fuel ((c :: rest).drop pat.length)
      else c :: dropOcc pat fuel rest

/-- `base_name = file.filename.replace(".pdf", "")` (src/main.py:144). -/
def base_name (filename : List Nat) : List Nat :=
  dropOcc (byteStr ".pdf") filename.length filename

/-- One upload operation in flight: its own identity token, the original
filename of the uploaded payload, and the id of the serving process. -/
structure UploadOp where
  opToken : Nat
  filename : List Nat
  pid : Nat
deriving DecidableEq

/-- The staged-input path chosen at src/main.py:145:
`TEMP_DIR / f"input_{base_name}_{os.getpid()}.pdf"` — derived from the
filename and the process id only, never from `opToken`. -/
def input_file_path (op : UploadOp) : List Nat :=
  byteStr "input_" ++ base_name op.filename ++ byteStr "_" ++ digitBytes op.pid ++
    byteStr ".pdf"

/-!  Cleanup model (`cleanup_files`, src/main.py:406-419).  The file
system is a list of entries; a path is a list of segment identifiers so
that `rmtree` on a directory removes every entry reached through it. -/

/-- One file-system entry: its path (as path segments) and whether it is
a directory. -/
structure FsEntry where
  path : List Nat
  isDir : Bool
deriving DecidableEq

/-- `Path(p).exists()`: some entry has exactly this path. -/
def existsIn (fs : List FsEntry) (p : List Nat) : Bool :=
  fs.any (fun e => decide (e.path = p))

/-- Effect of `shutil.rmtree(p)` / `Path(p).unlink()` on the file
system, dispatched on `is_dir` exactly as src/main.py:412-417 does:
removing a directory removes every entry whose path extends it,
removing a file removes entries with that exact path. -/
def removeEntry (fs : List FsEntry) (p : List Nat) : List FsEntry :=
  match fs.find? (fun e => decide (e.path = p)) with
  | none => fs
  | some e =>
      if e.isDir then fs.filter (fun x => ¬ startsWith p x.path)
      else fs.filter (fun x => decide (x.path ≠ p))

/-- One iteration of the cleanup loop (src/main.py:409-419) on path `p`:
skip absent paths; a removal failure (the `fails` oracle) is caught,
logged as a warning and leaves the file system unchanged. Returns the
new file system and whether a warning was logged. -/
def cleanupOne (fails : List Nat → Bool) (fs : List FsEntry) (p : List Nat) :
    List FsEntry × Bool :=
  if existsIn fs p then
    if fails p then (fs, true) else (removeEntry fs p, false)
  else (fs, false)

/-- The whole cleanup loop over the given paths, threading the file
system and counting logged warnings; errors never escape the loop. -/
def cleanupList (fails : List Nat → Bool) (fs : List FsEntry) :
    List (List Nat) → List FsEntry × Nat
  | [] => (fs, 0)
  | p :: ps =>
      let step := cleanupOne fails fs p
      let rest := cleanupList fails step.1 ps
      (rest.1, (if step.2 then 1 else 0) + rest.2)

/-- The `asyncio.sleep` duration at src/main.py:408. -/
def releaseDelay : Nat := 3

/-- Shallow embedding of `cleanup_files` (src/main.py:406-419): invoked
at `callTime`, it acts at `callTime + releaseDelay`, then runs the
cleanup loop.  Returns ((final file system, warning count), the time
the removals happen). -/
def cleanup_files (fails : List Nat → Bool) (fs : List FsEntry)
    (paths : List (List Nat)) (callTime : Nat) : (List FsEntry × Nat) × Nat :=
  (cleanupList fails fs paths, callTime + releaseDelay)

/-!  Check-protected model (`check_if_password_protected`,
src/main.py:70-116). -/

/-- External outcomes of one check-protected run: whether the staging
write succeeds, whether a failed write leaves a partial file behind, and
the PyPDF2 analysis result (`.ok isEncrypted` or a raised analysis
error). -/
structure CheckOracles where
  writeOk : Bool
  leftoverOnFail : Bool
  parse : Except Unit Bool
deriving DecidableEq

/-- Client-visible response of the check-protected endpoint. -/
inductive CheckResponse where
  | badRequest
  | serverError
  | okProtected (isProtected : Bool)
deriving DecidableEq

/-- Result of one check-protected run: the response, the final file
system, and the paths registered for deferred cleanup (none: the
endpoint schedules no background task). -/
structure CheckResult where
  response : CheckResponse
  fs : List FsEntry
  deferred : List (List Nat)
deriving DecidableEq

/-- The staged path `TEMP_DIR / f"check_{file.filename}"`
(src/main.py:79), as its byte string relative to the staging
directory. -/
def check_temp_path (filename : List Nat) : List Nat := byteStr "check_" ++ filename

/-- The `finally` block of src/main.py:114-116: unlink the staged path
if it still exists. -/
def finallyUnlink (fs : List FsEntry) (p : List Nat) : List FsEntry :=
  if existsIn fs p then removeEntry fs p else fs

/-- The `.pdf` extension gate at src/main.py:74. -/
def endsWithPdf (filename : List Nat) : Bool :=
  endsWithB (lowerBytes filename) (byteStr ".pdf")

/-- Shallow embedding of `check_if_password_protected`
(src/main.py:70-116) as a state transformer on the staging file system:
reject non-`.pdf` names before staging; otherwise stage the upload,
analyze it, and in every exit path run the `finally` unlink. -/
def check_if_password_protected (fs : List FsEntry) (filename : List Nat)
    (o : CheckOracles) : CheckResult :=
  if ¬ endsWithPdf filename then ⟨.badRequest, fs, []⟩
  else
    let p := check_temp_path filename
    if o.writeOk = false then
      let fs1 := if o.leftoverOnFail then fs ++ [⟨p, false⟩] else fs
      ⟨.serverError, finallyUnlink fs1 p, []⟩
    else
      let fs1 := fs ++ [⟨p, false⟩]
      match o.parse with
      | .error _ => ⟨.serverError, finallyUnlink fs1 p, []⟩
      | .ok enc => ⟨.okProtected enc, finallyUnlink fs1 p, []⟩

/-!  Theorems. -/

/-- Claim C1: for every document input to decrypt whose source is not
encrypted, the operation succeeds and its output is a byte-identical
copy of the input — the file-copy branch of src/main.py:362-365, not the
page-copy re-serialization. -/
theorem decrypt_unencrypted_byte_copy (doc : PdfFile) (pw : List Nat)
    (h : doc.encrypted = false) :
    remove_password_pypdf2 (.ok doc) pw = (true, some (.copiedBytes doc.bytes)) := by
  simp [remove_password_pypdf2, h]

/-- Witness for C1 at a concrete unencrypted three-byte document. -/
theorem decrypt_unencrypted_byte_copy_witness :
    (⟨[1, 2, 3], false, [], [], [7], none⟩ : PdfFile).encrypted = false ∧
      remove_password_pypdf2 (.ok ⟨[1, 2, 3], false, [], [], [7], none⟩) (byteStr "pw") =
        (true, some (.copiedBytes [1, 2, 3])) :=
  ⟨rfl, decrypt_unencrypted_byte_copy ⟨[1, 2, 3], false, [], [], [7], none⟩ (byteStr "pw") rfl⟩

/-- Claim C4: for every document encrypted with secret S, decrypt with
any other candidate fails (the `decrypt_result == 0` branch at
src/main.py:370-372) and nothing is written to the output path, while
decrypt with S succeeds. -/
theorem decrypt_password_gate (doc : PdfFile) (S Sp : List Nat)
    (henc : doc.encrypted = true) (hu : doc.userPw = S) (ho : doc.ownerPw = S)
    (hne : Sp ≠ S) :
    remove_password_pypdf2 (.ok doc) Sp = (false, none) ∧
      (remove_password_pypdf2 (.ok doc) S).1 = true := by
  constructor
  · simp [remove_password_pypdf2, henc, pypdf2Decrypt, hu, ho, hne]
  · simp [remove_password_pypdf2, henc, pypdf2Decrypt, hu]

/-- Witness for C4 at a concrete encrypted document with secret "S" and
rejected candidate "T". -/
theorem decrypt_password_gate_witness :
    (byteStr "T") ≠ (byteStr "S") ∧
      remove_password_pypdf2 (.ok ⟨[9], true, byteStr "S", byteStr "S", [1, 2], none⟩)
          (byteStr "T") = (false, none) ∧
      (remove_password_pypdf2 (.ok ⟨[9], true, byteStr "S", byteStr "S", [1, 2], none⟩)
          (byteStr "S")).1 = true := by
  refine ⟨by decide, ?_⟩
  exact decrypt_password_gate ⟨[9], true, byteStr "S", byteStr "S", [1, 2], none⟩
    (byteStr "S") (byteStr "T") rfl rfl rfl (by decide)

/-- Claim C5 counterexample: an internal failure of the decrypt step
that is not a password rejection (a corrupt input whose parse raises) is
still surfaced as the InvalidPassword client error, and a renderer
diagnostic that mentions encryption but not the word "password" is
reported as ConversionFailed, not PasswordRequired. -/
theorem raster_error_mapping_counterexample :
    remove_password_pypdf2 (.error (byteStr "corrupt file")) (byteStr "secret") =
        (false, none) ∧
      (convert_pdf_to_images (some (byteStr "secret")) (.error (byteStr "corrupt file"))
          (.ok [1])).result = .error .invalidPassword ∧
      claimMentionsPasswordOrEncryption (byteStr "pdf is encrypted") = true ∧
      (convert_pdf_to_images none (.ok ⟨[], false, [], [], [1], none⟩)
          (.error (byteStr "pdf is encrypted"))).result =
        .error (.conversionFailed (byteStr "pdf is encrypted")) ∧
      RasterError.conversionFailed (byteStr "pdf is encrypted") ≠
        RasterError.passwordRequired := by
  decide

/-- Claim C5 (amended): when a password is supplied, any decrypt failure
— password rejection or an internal failure of the decrypt step — is
surfaced as the InvalidPassword client error, and InvalidPassword arises
only from the decrypt step; and on every run that reaches the renderer
(no password supplied, or a supplied password whose decrypt succeeded,
the two paths through src/main.py:166-179) a renderer failure is
reported as PasswordRequired exactly when the lower-cased diagnostic
contains the substring "password", and as ConversionFailed carrying the
diagnostic otherwise. -/
theorem raster_error_mapping (pw : List Nat) (password : Option (List Nat))
    (input : Except (List Nat) PdfFile) (render : Except (List Nat) (List Nat))
    (e : List Nat) :
    ((remove_password_pypdf2 input pw).1 = false →
      (convert_pdf_to_images (some pw) input render).result = .error .invalidPassword) ∧
    ((convert_pdf_to_images (some pw) input render).result = .error .invalidPassword →
      (remove_password_pypdf2 input pw).1 = false) ∧
    ((password = none ∨
        ∃ p0, password = some p0 ∧ (remove_password_pypdf2 input p0).1 = true) →
      (((convert_pdf_to_images password input (.error e)).result =
          .error .passwordRequired ↔
        containsSub (byteStr "password") (lowerBytes e) = true) ∧
      (containsSub (byteStr "password") (lowerBytes e) = false →
        (convert_pdf_to_images password input (.error e)).result =
          .error (.conversionFailed e)))) := by
  refine ⟨fun h => by simp [convert_pdf_to_images, h], ?_, ?_⟩
  · intro h
    by_cases hd : (remove_password_pypdf2 input pw).1 = false
    · exact hd
    · exfalso
      simp only [convert_pdf_to_images, hd, if_false] at h
      cases render with
      | error e2 =>
          simp only [renderPhase, rasterizeErrorMap] at h
          by_cases hc : containsSub (byteStr "password") (lowerBytes e2) = true
          · simp [hc] at h
          · simp [hc] at h
      | ok pages => simp [renderPhase] at h
  · intro hreach
    have hres : (convert_pdf_to_images password input (.error e)).result =
        .error (rasterizeErrorMap e) := by
      rcases hreach with rfl | ⟨p0, rfl, hp0⟩
      · rfl
      · simp [convert_pdf_to_images, hp0, renderPhase]
    refine ⟨?_, ?_⟩
    · rw [hres]
      by_cases hc : containsSub (byteStr "password") (lowerBytes e) = true
      · simp [rasterizeErrorMap, hc]
      · simp [rasterizeErrorMap, hc]
    · intro hc
      rw [hres]
      simp [rasterizeErrorMap, hc]

/-- Witness for C5 (amended) at a concrete corrupt decrypt input, and at
a password-supplied run whose decrypt succeeds and whose renderer then
fails with a diagnostic not mentioning "password". -/
theorem raster_error_mapping_witness :
    (remove_password_pypdf2 (.error (byteStr "boom")) (byteStr "x")).1 = false ∧
      (convert_pdf_to_images (some (byteStr "x")) (.error (byteStr "boom"))
          (.ok [])).result = .error .invalidPassword ∧
      (remove_password_pypdf2 (.ok ⟨[9], true, byteStr "pw", byteStr "pw", [1], none⟩)
          (byteStr "pw")).1 = true ∧
      (convert_pdf_to_images (some (byteStr "pw"))
          (.ok ⟨[9], true, byteStr "pw", byteStr "pw", [1], none⟩)
          (.error (byteStr "no pages"))).result =
        .error (.conversionFailed (byteStr "no pages")) :=
  ⟨by decide,
    (raster_error_mapping (byteStr "x") none (.error (byteStr "boom")) (.ok [])
      (byteStr "e")).1 (by decide),
    by decide,
    ((raster_error_mapping (byteStr "x") (some (byteStr "pw"))
        (.ok ⟨[9], true, byteStr "pw", byteStr "pw", [1], none⟩)
        (.error (byteStr "no pages")) (byteStr "no pages")).2.2
      (Or.inr ⟨byteStr "pw", rfl, by decide⟩)).2 (by decide)⟩

/-- Claim C7, evaluating the code at the failing inputs: on a
successful password-supplied run the decrypted copy is a staged artifact
but is absent from the deferred-cleanup registration handed to the
response (src/main.py:208 lists only the input, the zip and the images
directory), and on an engine-failure run nothing at all is registered
for immediate cleanup although the input is staged
(src/main.py:211-215 only re-raise). -/
theorem raster_cleanup_gap :
    (convert_pdf_to_images (some (byteStr "pw"))
        (.ok ⟨[9], true, byteStr "pw", byteStr "pw", [1, 2], none⟩) (.ok [1, 2])).result =
      .ok [1, 2] ∧
    TempPath.unlockedFile ∈ (convert_pdf_to_images (some (byteStr "pw"))
        (.ok ⟨[9], true, byteStr "pw", byteStr "pw", [1, 2], none⟩) (.ok [1, 2])).staged ∧
    TempPath.unlockedFile ∉ (convert_pdf_to_images (some (byteStr "pw"))
        (.ok ⟨[9], true, byteStr "pw", byteStr "pw", [1, 2], none⟩) (.ok [1, 2])).deferredCleanup ∧
    (convert_pdf_to_images none (.ok ⟨[9], false, [], [], [1], none⟩)
        (.error (byteStr "render boom"))).immediateCleanup = [] ∧
    TempPath.inputFile ∈ (convert_pdf_to_images none (.ok ⟨[9], false, [], [], [1], none⟩)
        (.error (byteStr "render boom"))).staged := by
  decide

/-- Claim C8, evaluating the code at the failing input: the staged
input path (src/main.py:145) is a function of the original filename and
the process id alone, so any two operations agreeing on those — in
particular two distinct concurrent requests in one process uploading
same-named files — are assigned the same staging path. -/
theorem staging_path_collision (a b : UploadOp) (hf : a.filename = b.filename)
    (hp : a.pid = b.pid) : input_file_path a = input_file_path b := by
  simp [input_file_path, base_name, hf, hp]

/-- Witness for C8: two distinct operations, both named doc.pdf in
process 7, collide on the path input_doc_7.pdf. -/
theorem staging_path_collision_witness :
    (⟨0, byteStr "doc.pdf", 7⟩ : UploadOp) ≠ ⟨1, byteStr "doc.pdf", 7⟩ ∧
      input_file_path ⟨0, byteStr "doc.pdf", 7⟩ = input_file_path ⟨1, byteStr "doc.pdf", 7⟩ ∧
      input_file_path ⟨0, byteStr "doc.pdf", 7⟩ = byteStr "input_doc_7.pdf" :=
  ⟨by decide, staging_path_collision ⟨0, byteStr "doc.pdf", 7⟩ ⟨1, byteStr "doc.pdf", 7⟩ rfl rfl,
    by decide⟩

/-- Claim C2: for every image composed onto a page, the scale equals
min((pageWidth − 100)/imgW, (pageHeight − 100)/imgH); the drawn box is
always imgW·scale × imgH·scale and is centered at
x = (pageWidth − drawnWidth)/2, y = (pageHeight − drawnHeight)/2; and a
resample — with the Lanczos filter, to the truncated box dimensions —
is issued exactly when scale < 1, the native pixels being embedded into
the scaled box otherwise. -/
theorem compose_layout (pw ph : ℚ) (iw ih : Nat) :
    (layoutImage pw ph iw ih).scale = min ((pw - 100) / iw) ((ph - 100) / ih) ∧
    (layoutImage pw ph iw ih).newWidth = iw * (layoutImage pw ph iw ih).scale ∧
    (layoutImage pw ph iw ih).newHeight = ih * (layoutImage pw ph iw ih).scale ∧
    (layoutImage pw ph iw ih).x = (pw - (layoutImage pw ph iw ih).newWidth) / 2 ∧
    (layoutImage pw ph iw ih).y = (ph - (layoutImage pw ph iw ih).newHeight) / 2 ∧
    ((layoutImage pw ph iw ih).resample.isSome ↔ (layoutImage pw ph iw ih).scale < 1) ∧
    ((layoutImage pw ph iw ih).scale < 1 →
      (layoutImage pw ph iw ih).resample =
        some ((⌊(iw : ℚ) * (layoutImage pw ph iw ih).scale⌋).toNat,
          (⌊(ih : ℚ) * (layoutImage pw ph iw ih).scale⌋).toNat, .lanczos)) ∧
    (¬ (layoutImage pw ph iw ih).scale < 1 → (layoutImage pw ph iw ih).resample = none) := by
  unfold layoutImage
  by_cases h : min ((pw - 100) / (iw : ℚ)) ((ph - 100) / (ih : ℚ)) < 1
  · simp [h]
  · simp [h]

/-- Case analysis on the first-offender scan of the extension check:
either every file passes and the scan reports none, or it reports some
failing file of the list. -/
lemma findBadImage_spec (files : List (List Nat)) :
    (findBadImage files = none ∧ ∀ f ∈ files, isAllowedImage f = true) ∨
    (∃ g ∈ files, isAllowedImage g = false ∧ findBadImage files = some g) := by
  induction files with
  | nil => exact Or.inl ⟨rfl, by simp⟩
  | cons a fs ih =>
      by_cases ha : isAllowedImage a = true
      · rcases ih with ⟨h1, h2⟩ | ⟨g, hg, hgb, hfind⟩
        · refine Or.inl ⟨by simp [findBadImage, ha, h1], ?_⟩
          intro f hf
          rcases List.mem_cons.mp hf with rfl | hf2
          · exact ha
          · exact h2 f hf2
        · exact Or.inr ⟨g, by simp [hg], hgb, by simp [findBadImage, ha, hfind]⟩
      · exact Or.inr ⟨a, by simp, by simpa using ha, by simp [findBadImage, ha]⟩

/-- Claim C6: compose rejects an empty input with NoImages and a
51-image input with TooManyImages while letting 1-image and 50-image
inputs (with valid parameters and extensions) through to the transform;
and whenever some input file fails the extension whitelist, validation
itself — before any staging or transform work, whatever transform is
supplied — returns UnsupportedFormat naming an offending file. -/
theorem compose_validation (files : List (List Nat)) (ps orient : List Nat) (q : Nat)
    (transform : List (List Nat) → Except ComposeError (List Nat)) :
    (files = [] → composeWith transform files ps orient q = .error .noImages) ∧
    (files.length = 51 → composeWith transform files ps orient q = .error .tooManyImages) ∧
    ((files.length = 1 ∨ files.length = 50) →
      upperBytes ps ∈ [byteStr "A4", byteStr "LETTER", byteStr "LEGAL"] →
      lowerBytes orient ∈ [byteStr "portrait", byteStr "landscape"] →
      50 ≤ q → q ≤ 100 → (∀ f ∈ files, isAllowedImage f = true) →
      composeWith transform files ps orient q = transform files) ∧
    ((∃ f ∈ files, isAllowedImage f = false) → files ≠ [] → files.length ≤ 50 →
      upperBytes ps ∈ [byteStr "A4", byteStr "LETTER", byteStr "LEGAL"] →
      lowerBytes orient ∈ [byteStr "portrait", byteStr "landscape"] →
      50 ≤ q → q ≤ 100 →
      ∃ g ∈ files, isAllowedImage g = false ∧
        ∀ t2 : List (List Nat) → Except ComposeError (List Nat),
          composeWith t2 files ps orient q = .error (.unsupportedFormat g)) := by
  refine ⟨?_, ?_, ?_, ?_⟩
  · intro h
    subst h
    rfl
  · intro h
    have h0 : files.length ≠ 0 := by omega
    have h1 : 50 < files.length := by omega
    simp [composeWith, validateCompose, h0, h1]
  · intro hlen hps hor hq1 hq2 hall
    have h0 : files.length ≠ 0 := by rcases hlen with h | h <;> omega
    have h1 : ¬ 50 < files.length := by rcases hlen with h | h <;> omega
    have hfind : findBadImage files = none := by
      rcases findBadImage_spec files with ⟨hf, _⟩ | ⟨g, hg, hgb, _⟩
      · exact hf
      · rw [hall g hg] at hgb
        cases hgb
    simp [composeWith, validateCompose, h0, h1, hps, hor, hq1, hq2, hfind]
  · intro hex hne hle hps hor hq1 hq2
    rcases findBadImage_spec files with ⟨_, hall⟩ | ⟨g, hg, hgb, hfind⟩
    · rcases hex with ⟨f, hf, hfb⟩
      rw [hall f hf] at hfb
      cases hfb
    · refine ⟨g, hg, hgb, fun t2 => ?_⟩
      have h0 : files.length ≠ 0 := by
        simpa [List.length_eq_zero] using hne
      have h1 : ¬ 50 < files.length := by omega
      simp [composeWith, validateCompose, h0, h1, hps, hor, hq1, hq2, hfind]

/-- Witness for C6: one valid png reaches the transform; 51 files are
rejected with TooManyImages; a txt among valid pngs yields
UnsupportedFormat naming it. -/
theorem compose_validation_witness :
    composeWith emptyTransform [byteStr "a.png"] (byteStr "A4") (byteStr "portrait") 85 =
        emptyTransform [byteStr "a.png"] ∧
      composeWith emptyTransform (List.replicate 51 (byteStr "a.png")) (byteStr "A4")
        (byteStr "portrait") 85 = .error .tooManyImages := by
  constructor
  · exact (compose_validation [byteStr "a.png"] (byteStr "A4") (byteStr "portrait") 85
      emptyTransform).2.2.1 (Or.inl (by decide)) (by decide) (by decide) (by decide)
      (by decide) (by decide)
  · exact (compose_validation (List.replicate 51 (byteStr "a.png")) (byteStr "A4")
      (byteStr "portrait") 85 emptyTransform).2.1 (by decide)

/-- In a file system with no entry at `p`, the first entry at `p` of
`fs ++ [x]` (where `x` sits at `p`) is `x` itself. -/
lemma find?_append_fresh (fs : List FsEntry) (p : List Nat)
    (h : existsIn fs p = false) (x : FsEntry) (hx : x.path = p) :
    (fs ++ [x]).find? (fun e => decide (e.path = p)) = some x := by
  induction fs with
  | nil => simp [List.find?, hx]
  | cons a as ih =>
      simp only [existsIn, List.any_cons, Bool.or_eq_false_iff,
        decide_eq_false_iff_not] at h
      have ha : ¬ a.path = p := h.1
      have has : existsIn as p = false := by
        simp only [existsIn]
        exact h.2
      have hd : decide (a.path = p) = false := by simpa using ha
      simp only [List.cons_append, List.find?_cons, hd]
      exact ih has

/-- Entries whose path differs from `p` all survive the `≠ p` filter, so
filtering a fresh file system is the identity. -/
lemma filter_ne_fresh (fs : List FsEntry) (p : List Nat)
    (h : existsIn fs p = false) :
    fs.filter (fun x => decide (x.path ≠ p)) = fs := by
  rw [List.filter_eq_self]
  intro e he
  simp only [decide_eq_true_eq]
  intro hc
  have hex : existsIn fs p = true := by
    simp only [existsIn, List.any_eq_true]
    exact ⟨e, he, by simp [hc]⟩
  rw [hex] at h
  cases h

/-- Unlinking a freshly staged file at a previously absent path restores
exactly the original file system. -/
lemma finallyUnlink_fresh (fs : List FsEntry) (p : List Nat)
    (h : existsIn fs p = false) :
    finallyUnlink (fs ++ [⟨p, false⟩]) p = fs := by
  have hex : existsIn (fs ++ [⟨p, false⟩]) p = true := by
    simp [existsIn]
  have hfind := find?_append_fresh fs p h ⟨p, false⟩ rfl
  simp only [finallyUnlink, hex, if_true, removeEntry, hfind, Bool.false_eq_true, if_false]
  rw [List.filter_append, filter_ne_fresh fs p h]
  simp

/-- Claim C10: the check-protected operation removes its staged copy in
the finally step on every exit path — invalid extension (nothing was
staged), failed staging write (with or without a partial file), analysis
failure, and success — so it leaves the staging file system exactly as
found, and it registers nothing for deferred cleanup. -/
theorem check_protected_frame (fs : List FsEntry) (filename : List Nat)
    (o : CheckOracles) (h : existsIn fs (check_temp_path filename) = false) :
    (check_if_password_protected fs filename o).fs = fs ∧
      (check_if_password_protected fs filename o).deferred = [] := by
  unfold check_if_password_protected
  by_cases hpdf : endsWithPdf filename
  · simp only [hpdf, not_true, if_neg, if_false]
    by_cases hw : o.writeOk = false
    · simp only [hw, if_true]
      by_cases hpart : o.leftoverOnFail
      · simp [hpart, finallyUnlink_fresh fs (check_temp_path filename) h]
      · have hnone : finallyUnlink fs (check_temp_path filename) = fs := by
          simp [finallyUnlink, h]
        simp [hpart, hnone]
    · simp only [hw, if_false]
      cases hp : o.parse with
      | error u => simp [hw, hp, finallyUnlink_fresh fs (check_temp_path filename) h]
      | ok enc => simp [hw, hp, finallyUnlink_fresh fs (check_temp_path filename) h]
  · simp [hpdf]

/-- Every path equals itself as its own first segment run, so a
directory removal also removes the directory entry itself. -/
lemma startsWith_self (s : List Nat) : startsWith s s = true := by
  induction s with
  | nil => rfl
  | cons a as ih => simp [startsWith, ih]

/-- Removal never adds entries: the removeEntry result is a
sub-collection of the file system it acted on. -/
lemma removeEntry_subset (fs : List FsEntry) (p : List Nat) :
    ∀ e ∈ removeEntry fs p, e ∈ fs := by
  unfold removeEntry
  cases hf : fs.find? (fun e => decide (e.path = p)) with
  | none => exact fun e he => he
  | some x =>
      by_cases hd : x.isDir
      · simp only [hd, if_true]
        exact fun e he => (List.mem_filter.mp he).1
      · simp only [hd, if_false]
        exact fun e he => (List.mem_filter.mp he).1

/-- After removing `p` from a file system that holds it, no entry sits
at `p` any more — for a file by the exact-path filter, for a directory
because the directory path extends itself. -/
lemma existsIn_removeEntry (fs : List FsEntry) (p : List Nat)
    (h : existsIn fs p = true) : existsIn (removeEntry fs p) p = false := by
  unfold removeEntry
  cases hf : fs.find? (fun e => decide (e.path = p)) with
  | none =>
      exfalso
      simp only [existsIn, List.any_eq_true] at h
      rcases h with ⟨e, he, hep⟩
      have := List.find?_eq_none.mp hf e he
      exact this hep
  | some x =>
      by_cases hd : x.isDir
      · simp only [hd, if_true, existsIn, List.any_eq_false]
        intro e he
        rcases List.mem_filter.mp he with ⟨_, hkeep⟩
        simp only [decide_eq_true_eq] at hkeep ⊢
        intro hc
        rw [hc] at hkeep
        exact hkeep (by simp [startsWith_self])
      · simp only [hd, if_false, existsIn, List.any_eq_false]
        intro e he
        rcases List.mem_filter.mp he with ⟨_, hkeep⟩
        simp only [decide_eq_true_eq] at hkeep ⊢
        exact hkeep

/-- One loop iteration never adds entries. -/
lemma cleanupOne_subset (fails : List Nat → Bool) (fs : List FsEntry) (p : List Nat) :
    ∀ e ∈ (cleanupOne fails fs p).1, e ∈ fs := by
  unfold cleanupOne
  by_cases he : existsIn fs p = true
  · by_cases hfail : fails p = true
    · simp [he, hfail]
    · simp only [he, hfail, if_true, if_false]
      exact removeEntry_subset fs p
  · simp [he]

/-- The whole loop never adds entries. -/
lemma cleanupList_subset (fails : List Nat → Bool) (ps : List (List Nat)) :
    ∀ fs, ∀ e ∈ (cleanupList fails fs ps).1, e ∈ fs := by
  induction ps with
  | nil => exact fun fs e he => he
  | cons q rest ih =>
      intro fs e he
      simp only [cleanupList] at he
      exact cleanupOne_subset fails fs q e (ih (cleanupOne fails fs q).1 e he)

/-- A path absent from a sub-collection of an fs it is absent from. -/
lemma existsIn_false_of_subset (fs1 fs2 : List FsEntry) (p : List Nat)
    (hsub : ∀ e ∈ fs2, e ∈ fs1) (h : existsIn fs1 p = false) :
    existsIn fs2 p = false := by
  simp only [existsIn, List.any_eq_false] at h ⊢
  exact fun e he => h e (hsub e he)

/-- Every listed path that is present and whose removal does not fail is
absent after the loop, independently of what happens to other paths. -/
lemma cleanupList_removes (fails : List Nat → Bool) (ps : List (List Nat)) :
    ∀ fs p, p ∈ ps → fails p = false →
      existsIn (cleanupList fails fs ps).1 p = false := by
  induction ps with
  | nil =>
      intro fs p hp
      cases hp
  | cons q rest ih =>
      intro fs p hp hfail
      rcases List.mem_cons.mp hp with rfl | hp2
      · have h1 : existsIn (cleanupOne fails fs p).1 p = false := by
          unfold cleanupOne
          by_cases he : existsIn fs p = true
          · simp only [he, hfail, if_true, Bool.false_eq_true, if_false]
            exact existsIn_removeEntry fs p he
          · simp only [he, if_false]
            simpa using he
        have hsub := cleanupList_subset fails rest (cleanupOne fails fs p).1
        simp only [cleanupList]
        exact existsIn_false_of_subset _ _ p hsub h1
      · simp only [cleanupList]
        exact ih (cleanupOne fails fs q).1 p hp2 hfail

/-- Claim C9: cleanup acts exactly the release delay after invocation
(so never sooner); an already-absent path is skipped without error —
deletion is idempotent; a failing removal only logs a warning, is
confined to its own iteration (the rest of the loop proceeds exactly as
it would on the remaining paths) and propagates nothing — the function
totally returns a file system and a warning count; and every listed
path that is present and removable ends up absent. -/
theorem cleanup_files_spec (fails : List Nat → Bool) (fs : List FsEntry)
    (paths : List (List Nat)) (t : Nat) :
    (cleanup_files fails fs paths t).2 = t + releaseDelay ∧
    (∀ p ps, existsIn fs p = false →
      cleanupList fails fs (p :: ps) = cleanupList fails fs ps) ∧
    (∀ p ps, existsIn fs p = true → fails p = true →
      cleanupList fails fs (p :: ps) =
        ((cleanupList fails fs ps).1, 1 + (cleanupList fails fs ps).2)) ∧
    (∀ p, p ∈ paths → fails p = false →
      existsIn (cleanup_files fails fs paths t).1.1 p = false) := by
  refine ⟨rfl, ?_, ?_, ?_⟩
  · intro p ps h
    simp [cleanupList, cleanupOne, h]
  · intro p ps he hfail
    simp [cleanupList, cleanupOne, he, hfail]
  · intro p hp hfail
    exact cleanupList_removes fails paths fs p hp hfail

/-- Witness for C9: one file, one successful removal, invoked at time 5. -/
theorem cleanup_files_spec_witness :
    (cleanup_files (fun _ => false) [⟨[0], false⟩] [[0]] 5).2 = 5 + releaseDelay ∧
      [0] ∈ [[0]] ∧
      existsIn (cleanup_files (fun _ => false) [⟨[0], false⟩] [[0]] 5).1.1 [0] = false :=
  ⟨(cleanup_files_spec (fun _ => false) [⟨[0], false⟩] [[0]] 5).1, by decide,
    (cleanup_files_spec (fun _ => false) [⟨[0], false⟩] [[0]] 5).2.2.2 [0] (by decide) rfl⟩

/-- With positive fuel, a one-digit number yields its single digit. -/
lemma decDigitsAux_small (fuel n : Nat) (hf : 0 < fuel) (hn : n < 10) :
    decDigitsAux fuel n = [n] := by
  cases fuel with
  | zero => omega
  | succ f => simp [decDigitsAux, hn]

/-- With positive fuel, a multi-digit number splits into its leading
digits and its last digit. -/
lemma decDigitsAux_step (fuel n : Nat) (hf : 0 < fuel) (hn : ¬ n < 10) :
    decDigitsAux fuel n = decDigitsAux (fuel - 1) (n / 10) ++ [n % 10] := by
  cases fuel with
  | zero => omega
  | succ f => simp [decDigitsAux, hn]

/-- Closed form of the digit list for numbers of at most three digits. -/
lemma decDigits_le_999 (m : Nat) (h1 : 1 ≤ m) (h9 : m ≤ 999) :
    decDigits m =
      if m < 10 then [m]
      else if m < 100 then [m / 10, m % 10]
      else [m / 100, m / 10 % 10, m % 10] := by
  unfold decDigits
  by_cases ha : m < 10
  · rw [decDigitsAux_small (m + 1) m (by omega) ha]
    simp [ha]
  · by_cases hb : m < 100
    · rw [decDigitsAux_step (m + 1) m (by omega) ha]
      have e1 : m + 1 - 1 = m := by omega
      rw [e1, decDigitsAux_small m (m / 10) (by omega) (by omega)]
      simp [ha, hb]
    · rw [decDigitsAux_step (m + 1) m (by omega) ha]
      have e1 : m + 1 - 1 = m := by omega
      rw [e1, decDigitsAux_step m (m / 10) (by omega) (by omega)]
      rw [decDigitsAux_small (m - 1) (m / 10 / 10) (by omega) (by omega)]
      have e2 : m / 10 / 10 = m / 100 := by omega
      rw [e2]
      simp [ha, hb]

/-- Closed form of the zero-padded 3-digit field for page indices up to
999: always exactly the three ASCII digits of the index. -/
lemma pad3_le_999 (m : Nat) (h1 : 1 ≤ m) (h9 : m ≤ 999) :
    pad3 m = [48 + m / 100, 48 + m / 10 % 10, 48 + m % 10] := by
  unfold pad3 digitBytes
  rw [decDigits_le_999 m h1 h9]
  by_cases ha : m < 10
  · simp only [ha, if_true, List.map_cons, List.map_nil, List.length_cons,
      List.length_nil]
    simp [List.replicate]
    omega
  · by_cases hb : m < 100
    · simp only [ha, hb, if_true, if_false, List.map_cons, List.map_nil,
        List.length_cons, List.length_nil]
      simp [List.replicate]
      omega
    · simp only [ha, hb, if_false, List.map_cons, List.map_nil, List.length_cons,
        List.length_nil]
      simp [List.replicate]

/-- Unfolding equation of the lexicographic comparison on two conses. -/
lemma lexLt_cons (a b : Nat) (as bs : List Nat) :
    lexLt (a :: as) (b :: bs) =
      if a < b then true else if b < a then false else lexLt as bs := rfl

/-- Lexicographic comparison ignores a shared leading run. -/
lemma lexLt_append_same (p u v : List Nat) : lexLt (p ++ u) (p ++ v) = lexLt u v := by
  induction p with
  | nil => rfl
  | cons c cs ih => simp [lexLt_cons, ih]

/-- Two equal-length three-byte runs followed by a shared tail compare
lexicographically by their digit triples. -/
lemma lexLt_triple (x2 x1 x0 y2 y1 y0 : Nat) (s : List Nat)
    (h : x2 < y2 ∨ (x2 = y2 ∧ (x1 < y1 ∨ (x1 = y1 ∧ x0 < y0)))) :
    lexLt (x2 :: x1 :: x0 :: s) (y2 :: y1 :: y0 :: s) = true := by
  rcases h with h | ⟨rfl, h | ⟨rfl, h⟩⟩
  · simp [lexLt_cons, h]
  · simp [lexLt_cons, h]
  · simp [lexLt_cons, h]

/-- For page indices up to 999 the generated file names are strictly
lexicographically increasing in the page index. -/
lemma imageFilename_lt (fmt : ImgFormat) (a b : Nat) (h1 : 1 ≤ a) (hab : a < b)
    (hb : b ≤ 999) : lexLt (imageFilename fmt a) (imageFilename fmt b) = true := by
  unfold imageFilename
  rw [List.append_assoc, List.append_assoc, List.append_assoc, List.append_assoc,
    lexLt_append_same]
  rw [pad3_le_999 a h1 (by omega), pad3_le_999 b (by omega) hb]
  simp only [List.cons_append, List.nil_append]
  exact lexLt_triple _ _ _ _ _ _ _ (by omega)

/-- The archive entry at 0-based position i is the file of 1-based page
i+1. -/
lemma archiveEntries_getD (fmt : ImgFormat) (n i : Nat) (h : i < n) :
    (archiveEntries fmt n).getD i [] = imageFilename fmt (i + 1) := by
  unfold archiveEntries
  rw [List.getD_eq_getElem _ _ (by simpa using h)]
  simp

/-- Claim C3 counterexample: on a 1000-page document the code names
page 1000 page_1000.png, which sorts lexicographically before the
entry page_999.png at the previous position, so lexicographic order of
the archive entries does not equal document page order. -/
theorem raster_archive_lex_counterexample :
    (archiveEntries .png 1000).getD 998 [] = byteStr "page_999.png" ∧
      (archiveEntries .png 1000).getD 999 [] = byteStr "page_1000.png" ∧
      lexLt (byteStr "page_999.png") (byteStr "page_1000.png") = false ∧
      lexLt (byteStr "page_1000.png") (byteStr "page_999.png") = true := by
  refine ⟨?_, ?_, by decide, by decide⟩
  · rw [archiveEntries_getD .png 1000 998 (by omega)]
    decide
  · rw [archiveEntries_getD .png 1000 999 (by omega)]
    decide

/-- Claim C3 (amended): for every document of at most 999 pages
rasterized with n pages, exactly one image file is produced per page,
named with the 1-based page index zero-padded to 3 digits and an
extension matching the requested format, and the archive holds one
entry per image whose name equals the file name, so lexicographic
order of archive entries equals document page order; JPEG pages are
saved at quality 95 with optimization, PNG pages with optimization.
(Beyond 999 pages the index field widens past 3 digits and the
lexicographic guarantee fails.) -/
theorem raster_archive_naming (fmt : ImgFormat) (n : Nat) (hn : n ≤ 999) :
    (archiveEntries fmt n).length = n ∧
    (∀ i, i < n → (archiveEntries fmt n).getD i [] =
      byteStr "page_" ++ pad3 (i + 1) ++ byteStr "." ++ formatExt fmt) ∧
    (∀ i j, i < j → j < n →
      lexLt ((archiveEntries fmt n).getD i []) ((archiveEntries fmt n).getD j []) = true) ∧
    savedWith .jpeg = ⟨byteStr "JPEG", some 95, true⟩ ∧
    savedWith .jpg = ⟨byteStr "JPEG", some 95, true⟩ ∧
    savedWith .png = ⟨byteStr "PNG", none, true⟩ := by
  refine ⟨by simp [archiveEntries], ?_, ?_, rfl, rfl, rfl⟩
  · intro i hi
    rw [archiveEntries_getD fmt n i hi]
    rfl
  · intro i j hij hj
    rw [archiveEntries_getD fmt n i (by omega), archiveEntries_getD fmt n j hj]
    exact imageFilename_lt fmt (i + 1) (j + 1) (by omega) (by omega) (by omega)

/-- Witness for C3 (amended) at the spec example: a 3-page PNG request
yields entries page_001.png, page_002.png, page_003.png in page order. -/
theorem raster_archive_naming_witness :
    (archiveEntries .png 3).length = 3 ∧
      (archiveEntries .png 3).getD 0 [] = byteStr "page_001.png" ∧
      (archiveEntries .png 3).getD 1 [] = byteStr "page_002.png" ∧
      (archiveEntries .png 3).getD 2 [] = byteStr "page_003.png" ∧
      lexLt ((archiveEntries .png 3).getD 0 []) ((archiveEntries .png 3).getD 1 []) = true :=
  ⟨(raster_archive_naming .png 3 (by omega)).1, by decide, by decide, by decide,
    (raster_archive_naming .png 3 (by omega)).2.2.1 0 1 (by omega) (by omega)⟩

/-- Witness for C10 on a concrete one-entry file system, a fresh
a.pdf upload, and a successful protected analysis. -/
theorem check_protected_frame_witness :
    existsIn [⟨byteStr "other", false⟩] (check_temp_path (byteStr "a.pdf")) = false ∧
      (check_if_password_protected [⟨byteStr "other", false⟩] (byteStr "a.pdf")
          ⟨true, false, .ok true⟩).fs = [⟨byteStr "other", false⟩] ∧
      (check_if_password_protected [⟨byteStr "other", false⟩] (byteStr "a.pdf")
          ⟨true, false, .ok true⟩).deferred = [] :=
  ⟨by decide,
    (check_protected_frame [⟨byteStr "other", false⟩] (byteStr "a.pdf")
      ⟨true, false, .ok true⟩ (by decide)).1,
    (check_protected_frame [⟨byteStr "other", false⟩] (byteStr "a.pdf")
      ⟨true, false, .ok true⟩ (by decide)).2⟩

end DocCraft
